import Mathlib

/-!
Verification of the session / streaming state machine of the legal_doc client
(`src/client/src/pages/Home/index.tsx`, `src/client/src/components/MessageInput.tsx`,
`src/client/src/components/Sidebar.tsx`, and the variant page in `src/unnamed/part_002`).

The TypeScript handlers are shallowly embedded as pure Lean functions: the React
state (`sessions`, `messages`, `documents`, `isLoading`, `isUploading`, plus the
route parameter `urlSessionId`) becomes a `HomeState` record, every `fetch` result
is supplied by an explicit environment value, and the HTTP requests a handler
issues are returned as a trace.  JavaScript platform primitives the code relies
on (`String.prototype.split`, `trim`, `slice`, `JSON.parse`) are modelled on
`List Char`, restricted to the value space the protocol uses (JSON without
floating-point literals and without unicode escapes).
-/

namespace LegalDoc

/-! ## JavaScript string primitives -/

/-- ASCII whitespace, the subset of JS whitespace relevant to the inputs here. -/
def jsWhitespace (c : Char) : Bool :=
  c = ' ' || c = '\n' || c = '\t' || c = '\r'

/-- Model of `String.prototype.trim` (on ASCII whitespace). -/
def jsTrim (s : String) : String :=
  String.mk (((s.data.dropWhile jsWhitespace).reverse.dropWhile jsWhitespace).reverse)

/-- Model of `s.slice(0, n)`. -/
def jsTake (n : Nat) (s : String) : String :=
  String.mk (s.data.take n)

/-- Model of `s.startsWith(p)` at the character-list level. -/
def listStartsWith : List Char → List Char → Bool
  | [], _ => true
  | _ :: _, [] => false
  | p :: ps, c :: cs => p = c && listStartsWith ps cs

/-- Model of `chunk.split("\n\n")`: non-overlapping, left-to-right, keeping
empty pieces, exactly as `String.prototype.split` with a string separator. -/
def splitOn2NL : List Char → List (List Char)
  | [] => [[]]
  | '\n' :: '\n' :: rest => [] :: splitOn2NL rest
  | c :: rest =>
    match splitOn2NL rest with
    | h :: t => (c :: h) :: t
    | [] => [[c]]

/-! ## JSON model (ECMAScript `JSON.parse` on the protocol's value space) -/

inductive Json where
  | null
  | bool (b : Bool)
  | num (n : Int)
  | str (s : String)
  | arr (elems : List Json)
  | obj (fields : List (String × Json))
  deriving Inhabited

/-- Skip JSON whitespace. -/
def skipWs : List Char → List Char
  | [] => []
  | c :: cs => if jsWhitespace c then skipWs cs else c :: cs

/-- JSON string escape characters (`\u` sequences are outside the modelled
subset); quote, backslash and slash escape to themselves. -/
def escChar (e : Char) : Option Char :=
  if e = 'n' then some '\n'
  else if e = 't' then some '\t'
  else if e = 'r' then some '\r'
  else if e = 'b' then some (Char.ofNat 8)
  else if e = 'f' then some (Char.ofNat 12)
  else if e = '"' ∨ e = '\\' ∨ e = '/' then some e
  else none

/-- Parse the body of a JSON string literal, the opening quote already consumed;
returns the decoded content and the input after the closing quote. -/
def parseStringAux : List Char → Option (String × List Char)
  | [] => none
  | c :: cs =>
    if c = '"' then some ("", cs)
    else if c = '\\' then
      match cs with
      | [] => none
      | e :: cs2 =>
        match escChar e with
        | some ec =>
          match parseStringAux cs2 with
          | some (s, r) => some (String.mk (ec :: s.data), r)
          | none => none
        | none => none
    else
      match parseStringAux cs with
      | some (s, r) => some (String.mk (c :: s.data), r)
      | none => none

/-- Numeric value of a digit run. -/
def digitsVal (ds : List Char) : Nat :=
  ds.foldl (fun a c => a * 10 + (c.toNat - 48)) 0

/-- Parse a JSON integer literal (optional minus, no leading zeros, no
fraction or exponent: floating-point literals are outside the modelled subset
and fail, as noted in the module header). -/
def parseIntLit (cs : List Char) : Option (Json × List Char) :=
  let (neg, cs1) := match cs with
    | '-' :: rest => (true, rest)
    | rest => (false, rest)
  let ds := cs1.takeWhile Char.isDigit
  let rest := cs1.dropWhile Char.isDigit
  if ds = [] then none
  else if ds.length > 1 && ds.headD '0' = '0' then none
  else
    match rest with
    | '.' :: _ => none
    | 'e' :: _ => none
    | 'E' :: _ => none
    | _ =>
      let n : Int := Int.ofNat (digitsVal ds)
      some (Json.num (if neg then -n else n), rest)

mutual

/-- Parse one JSON value; fuel bounds the nesting recursion. -/
def parseVal : Nat → List Char → Option (Json × List Char)
  | 0, _ => none
  | fuel + 1, cs =>
    match skipWs cs with
    | [] => none
    | c :: rest =>
      if c = '"' then
        match parseStringAux rest with
        | some (s, r) => some (Json.str s, r)
        | none => none
      else if c = '\x7b' then
        match parseObjMembers fuel rest true with
        | some (fs, r) => some (Json.obj fs, r)
        | none => none
      else if c = '[' then
        match parseArrItems fuel rest true with
        | some (vs, r) => some (Json.arr vs, r)
        | none => none
      else if listStartsWith "true".data (c :: rest) then
        some (Json.bool true, (c :: rest).drop 4)
      else if listStartsWith "false".data (c :: rest) then
        some (Json.bool false, (c :: rest).drop 5)
      else if listStartsWith "null".data (c :: rest) then
        some (Json.null, (c :: rest).drop 4)
      else
        parseIntLit (c :: rest)

/-- Parse the members of an object, the opening brace already consumed;
`first` is true when no member has been read yet (so a closing brace is legal). -/
def parseObjMembers : Nat → List Char → Bool → Option (List (String × Json) × List Char)
  | 0, _, _ => none
  | fuel + 1, cs, first =>
    match skipWs cs with
    | [] => none
    | c :: rest =>
      if c = '\x7d' then
        if first then some ([], rest) else none
      else if c = '"' then
        match parseStringAux rest with
        | some (key, r1) =>
          match skipWs r1 with
          | ':' :: r2 =>
            match parseVal fuel r2 with
            | some (v, r3) =>
              match skipWs r3 with
              | ',' :: r4 =>
                match parseObjMembers fuel r4 false with
                | some (fs, r5) => some ((key, v) :: fs, r5)
                | none => none
              | '\x7d' :: r4 => some ([(key, v)], r4)
              | _ => none
            | none => none
          | _ => none
        | none => none
      else none

/-- Parse the items of an array, the opening bracket already consumed. -/
def parseArrItems : Nat → List Char → Bool → Option (List Json × List Char)
  | 0, _, _ => none
  | fuel + 1, cs, first =>
    match skipWs cs with
    | [] => none
    | c :: rest =>
      if c = ']' then
        if first then some ([], rest) else none
      else
        match parseVal fuel (c :: rest) with
        | some (v, r1) =>
          match skipWs r1 with
          | ',' :: r2 =>
            match parseArrItems fuel r2 false with
            | some (vs, r3) => some (v :: vs, r3)
            | none => none
          | ']' :: r2 => some ([v], r2)
          | _ => none
        | none => none

end

/-- Model of `JSON.parse`: the whole input (up to trailing whitespace) must be
one value, otherwise the parse fails (in JS: throws, which the caller catches). -/
def Json.parse (s : String) : Option Json :=
  match parseVal (2 * s.data.length + 2) s.data with
  | some (v, rest) => if skipWs rest = [] then some v else none
  | none => none

/-- Property lookup on a parsed object: JS keeps the last duplicate key. -/
def jsonMemberLast (fields : List (String × Json)) (key : String) : Option Json :=
  match fields with
  | [] => none
  | (k, v) :: rest =>
    match jsonMemberLast rest key with
    | some w => some w
    | none => if k = key then some v else none

/-- JS truthiness of a JSON value. -/
def Json.truthy : Json → Bool
  | Json.null => false
  | Json.bool b => b
  | Json.num n => decide (n ≠ 0)
  | Json.str s => decide (s ≠ "")
  | Json.arr _ => true
  | Json.obj _ => true

mutual

/-- JS string coercion of a JSON value (as used by `content + data.token`). -/
def Json.toJsString : Json → String
  | Json.null => "null"
  | Json.bool true => "true"
  | Json.bool false => "false"
  | Json.num n => toString n
  | Json.str s => s
  | Json.obj _ => "[object Object]"
  | Json.arr xs => jsArrToString xs

/-- JS `Array.prototype.toString`: elements joined by commas. -/
def jsArrToString : List Json → String
  | [] => ""
  | [x] => Json.toJsString x
  | x :: y :: xs => Json.toJsString x ++ "," ++ jsArrToString (y :: xs)

end

/-! ## Data model (`Sidebar.tsx`, `ChatArea.tsx`, `DocumentList.tsx`) -/

/-- `ChatSession` from `Sidebar.tsx`: `id: string; title: string; updated_at: string`. -/
structure ChatSession where
  id : String
  title : String
  updated_at : String
  deriving Repr, DecidableEq

/-- `Message` from `ChatArea.tsx`: `role: "user" | "assistant" | "system"; content: string`. -/
structure Message where
  role : String
  content : String
  deriving Repr, DecidableEq

/-- `DocumentMetadata` from `DocumentList.tsx`. -/
structure DocumentMetadata where
  filename : String
  size : Nat
  uploaded_at : String
  deriving Repr, DecidableEq

/-- The React state of `Home` that the specified core manipulates, plus the
route parameter `urlSessionId` (from `useParams`); `navigate` is modelled as a
write to `urlSessionId`, with the route-change `useEffect`'s synchronous
branch (clearing `messages`/`documents` when the id is removed) applied at the
call sites that navigate to "/".  Presentation-only state (`uploadProgress`,
`isDocListOpen`, `previewDocUrl`) is omitted. -/
structure HomeState where
  sessions : List ChatSession
  messages : List Message
  documents : List DocumentMetadata
  isLoading : Bool
  isUploading : Bool
  urlSessionId : Option String
  deriving Repr, DecidableEq

/-- One HTTP request issued through `fetch`, recorded as a trace element. -/
inductive Request where
  | getChats
  | getChat (sessionId : String)
  | postChats (title : String)
  | patchChat (sessionId : String) (title : String)
  | deleteChat (sessionId : String)
  | postMessage (sessionId : String) (message : String)
  | postUpload (sessionId : String) (files : List String)
  deriving Repr, DecidableEq

/-- Outcome of one awaited `fetch` call: `ok` with the parsed JSON payload,
a response with a non-success status (`res.ok` false), or a thrown
network error caught by the surrounding `try`. -/
inductive FetchOutcome (α : Type) where
  | ok (a : α)
  | httpError
  | transportError
  deriving Repr, DecidableEq

/-- Outcome of the streaming `POST /chats/:id/message` call.  The code never
checks `response.ok` for this request; it only checks `response.body`.
`stream chunks readFails` delivers the body as the given transport chunks
(each already decoded to text, as `TextDecoder.decode` does per chunk);
`readFails = true` means `reader.read()` throws after those chunks instead of
completing, landing in the `catch` block. -/
inductive BodyOutcome where
  | transportError
  | noBody
  | stream (chunks : List String) (readFails : Bool)
  deriving Repr, DecidableEq

/-- Environment for one `handleSendMessage` episode: the server's responses. -/
structure SendEnv where
  createResponse : FetchOutcome ChatSession
  bodyOutcome : BodyOutcome

/-! ## Streaming decoder (`handleSendMessage` read loop, Home/index.tsx:196-230) -/

/-- Net effect of one record payload, following the source's
`try { const data = JSON.parse(dataStr); if (data.token) ... } catch {}`:
the token text is appended only when the payload parses to an object whose
`token` member is truthy; a parse failure (caught), a primitive result
(whose `.token` is `undefined`, hence falsy), `null` (whose `.token` access
throws and is caught) and a falsy `token` all leave the state unchanged. -/
def recordAppend (dataStr : String) : Option String :=
  match Json.parse dataStr with
  | some (Json.obj fields) =>
    match jsonMemberLast fields "token" with
    | some v => if v.truthy then some (v.toJsString) else none
    | none => none
  | _ => none

/-- The `for (const line of lines)` loop over one chunk's records: on a
`data: [DONE]` record it issues `fetchSessions()` (recorded, not awaited) and
`break`s out of this per-chunk loop only — the remaining lines of this chunk
are dropped, but the enclosing `while` keeps reading further chunks. -/
def processLines : List String → String → String × List Request
  | [], content => (content, [])
  | line :: rest, content =>
    if listStartsWith "data: ".data line.data then
      if String.mk (line.data.drop 6) = "[DONE]" then (content, [Request.getChats])
      else
        match recordAppend (String.mk (line.data.drop 6)) with
        | some tok => processLines rest (content ++ tok)
        | none => processLines rest content
    else processLines rest content

/-- One iteration of the `while` loop: decode the chunk and split it on
`"\n\n"`; no carry-over buffer exists between chunks in the source. -/
def processChunk (content : String) (chunk : String) : String × List Request :=
  processLines ((splitOn2NL chunk.data).map String.mk) content

/-- The whole read loop: every transport chunk is processed independently;
the accumulated assistant content and the issued requests are returned. -/
def decodeChunks : List String → String → String × List Request
  | [], content => (content, [])
  | chunk :: rest, content =>
    let r := processChunk content chunk
    let r2 := decodeChunks rest r.1
    (r2.1, r.2 ++ r2.2)

/-! ## `handleSendMessage` (Home/index.tsx:141-240) -/

def userMessage (text : String) : Message := ⟨"user", text⟩

/-- The synthetic reply appended by the `catch` block. -/
def errorReplyMessage : Message := ⟨"assistant", "Error: Failed to get response."⟩

/-- Title of a lazily created session: `text.slice(0, 30) + "..."`. -/
def sessionTitle (text : String) : String := jsTake 30 text ++ "..."

/-- The sending phase of `handleSendMessage`, entered once a target session id
is known: optimistic user message, `isLoading = true`, the streaming request,
the read loop, the `catch` that appends `errorReplyMessage`, and the `finally`
that resets `isLoading`. -/
def sendToSession (env : SendEnv) (st : HomeState) (preReqs : List Request)
    (target : String) (text : String) : HomeState × List Request :=
  let st1 := { st with messages := st.messages ++ [userMessage text], isLoading := true }
  let reqs := preReqs ++ [Request.postMessage target text]
  match env.bodyOutcome with
  | BodyOutcome.transportError =>
    ({ st1 with messages := st1.messages ++ [errorReplyMessage], isLoading := false }, reqs)
  | BodyOutcome.noBody =>
    ({ st1 with messages := st1.messages ++ [errorReplyMessage], isLoading := false }, reqs)
  | BodyOutcome.stream chunks readFails =>
    let d := decodeChunks chunks ""
    let withReply := st1.messages ++ [Message.mk "assistant" d.1]
    if readFails then
      ({ st1 with messages := withReply ++ [errorReplyMessage], isLoading := false },
       reqs ++ d.2)
    else
      ({ st1 with messages := withReply, isLoading := false }, reqs ++ d.2)

/-- `handleSendMessage`: blank-guard, lazy session creation when no session is
active (prepend to the list, navigate to the new id), then the sending phase.
The un-awaited `fetchSessions()` fired on `[DONE]` is recorded in the trace
but resolves outside this episode, so it does not rewrite `sessions` here. -/
def handleSendMessage (env : SendEnv) (st : HomeState) (text : String) :
    HomeState × List Request :=
  if jsTrim text = "" then (st, [])
  else
    match st.urlSessionId with
    | some tid => sendToSession env st [] tid text
    | none =>
      match env.createResponse with
      | FetchOutcome.ok ns =>
        let st1 := { st with sessions := ns :: st.sessions, urlSessionId := some ns.id }
        sendToSession env st1 [Request.postChats (sessionTitle text)] ns.id text
      | _ => (st, [Request.postChats (sessionTitle text)])

/-- `handleSubmit` from `MessageInput.tsx:35-44`: the guard
`if (message.trim() && !isLoading)` before `onSendMessage`; the second
component is the `message` textarea state, cleared only on a accepted submit. -/
def handleSubmit (env : SendEnv) (st : HomeState) (message : String) :
    (HomeState × List Request) × String :=
  if jsTrim message = "" then ((st, []), message)
  else if st.isLoading then ((st, []), message)
  else (handleSendMessage env st message, "")

/-! ## Session list operations (Home/index.tsx:85-118 and part_002:83-116) -/

/-- The property read `s._id` performed by `handleDeleteSession` and
`handleRenameSession` in `src/client/src/pages/Home/index.tsx` (lines 93 and
112).  `ChatSession` (Sidebar.tsx) declares the identifier field `id`, not
`_id`, and the same file reads `newSession.id` at line 157; in JavaScript the
access to the absent property evaluates to `undefined`. -/
def ChatSession.underscoreId (_ : ChatSession) : Option String := none

/-- `handleDeleteSession` of `src/client/src/pages/Home/index.tsx`:
`confirm()` gate, `DELETE /chats/:id`, and on success a filter keeping the
sessions whose `_id` differs, plus `navigate("/")` (modelled with the route
effect clearing messages and documents) when the deleted id was active. -/
def handleDeleteSession (resp : FetchOutcome Unit) (confirmed : Bool)
    (st : HomeState) (sessionId : String) : HomeState × List Request :=
  if !confirmed then (st, [])
  else
    match resp with
    | FetchOutcome.ok _ =>
      let st1 := { st with
        sessions := st.sessions.filter (fun s => s.underscoreId ≠ some sessionId) }
      let st2 :=
        if st.urlSessionId = some sessionId then
          { st1 with urlSessionId := none, messages := [], documents := [] }
        else st1
      (st2, [Request.deleteChat sessionId])
    | _ => (st, [Request.deleteChat sessionId])

/-- `handleRenameSession` of `src/client/src/pages/Home/index.tsx`:
`PATCH /chats/:id` and on success a map retitling the session whose `_id`
matches. -/
def handleRenameSession (resp : FetchOutcome Unit) (st : HomeState)
    (sessionId newTitle : String) : HomeState × List Request :=
  match resp with
  | FetchOutcome.ok _ =>
    ({ st with sessions := st.sessions.map (fun s =>
        if s.underscoreId = some sessionId then { s with title := newTitle } else s) },
     [Request.patchChat sessionId newTitle])
  | _ => (st, [Request.patchChat sessionId newTitle])

/-- `handleDeleteSession` of the variant page `src/unnamed/part_002` (line 91):
identical except that the filter uses the declared field `s.id`. -/
def part002DeleteSession (resp : FetchOutcome Unit) (confirmed : Bool)
    (st : HomeState) (sessionId : String) : HomeState × List Request :=
  if !confirmed then (st, [])
  else
    match resp with
    | FetchOutcome.ok _ =>
      let st1 := { st with sessions := st.sessions.filter (fun s => s.id ≠ sessionId) }
      let st2 :=
        if st.urlSessionId = some sessionId then
          { st1 with urlSessionId := none, messages := [], documents := [] }
        else st1
      (st2, [Request.deleteChat sessionId])
    | _ => (st, [Request.deleteChat sessionId])

/-- `handleRenameSession` of `src/unnamed/part_002` (line 110): the map
matches on the declared field `s.id`. -/
def part002RenameSession (resp : FetchOutcome Unit) (st : HomeState)
    (sessionId newTitle : String) : HomeState × List Request :=
  match resp with
  | FetchOutcome.ok _ =>
    ({ st with sessions := st.sessions.map (fun s =>
        if s.id = sessionId then { s with title := newTitle } else s) },
     [Request.patchChat sessionId newTitle])
  | _ => (st, [Request.patchChat sessionId newTitle])

/-! ## File upload (`handleFileUpload`, Home/index.tsx:242-340) -/

/-- The JSON body of a successful `POST /chats/:id/upload` response. -/
structure UploadResponse where
  session_id : String
  uploaded_count : Nat
  skipped_count : Nat
  failed_count : Nat
  skipped_files : List String
  failed_files : List String
  deriving Repr, DecidableEq

/-- The JSON body of `GET /chats/:id`: messages and documents, together with
the session metadata fields the backend includes (the code prepends this very
object to the sessions list). -/
structure SessionDoc where
  id : String
  title : String
  updated_at : String
  messages : List Message
  documents : List DocumentMetadata
  deriving Repr, DecidableEq

/-- The session-metadata view of a fetched session document, as the Sidebar
reads it after the code prepends the fetched object to `sessions`. -/
def SessionDoc.toChatSession (sd : SessionDoc) : ChatSession :=
  ⟨sd.id, sd.title, sd.updated_at⟩

/-- `fetchSessionData` (Home/index.tsx:59-73): on success messages and
documents are replaced; on a non-success status the code navigates to "/"
(route effect clears both lists); a thrown network error is caught and leaves
the state untouched. -/
def fetchSessionData (resp : FetchOutcome SessionDoc) (st : HomeState)
    (sessionId : String) : HomeState × List Request :=
  match resp with
  | FetchOutcome.ok sd =>
    ({ st with messages := sd.messages, documents := sd.documents },
     [Request.getChat sessionId])
  | FetchOutcome.httpError =>
    ({ st with urlSessionId := none, messages := [], documents := [] },
     [Request.getChat sessionId])
  | FetchOutcome.transportError => (st, [Request.getChat sessionId])

/-- `fetchSessions` (Home/index.tsx:46-57): on success the list is replaced;
any failure leaves it untouched. -/
def fetchSessionsOp (resp : FetchOutcome (List ChatSession)) (st : HomeState) :
    HomeState × List Request :=
  match resp with
  | FetchOutcome.ok data => ({ st with sessions := data }, [Request.getChats])
  | _ => (st, [Request.getChats])

/-- Environment for one `handleFileUpload` episode. -/
structure UploadEnv where
  uploadResponse : FetchOutcome UploadResponse
  sessionFetch : FetchOutcome SessionDoc
  sessionsFetch : FetchOutcome (List ChatSession)

/-- `handleFileUpload` of `src/client/src/pages/Home/index.tsx`: one batched
`POST /chats/:target/upload` where the target is the active session id or the
`"new"` sentinel; on success, when `uploaded_count + skipped_count > 0`, a
fresh session (created by the server on upload) is fetched, prepended and
navigated to, while an existing session is re-fetched together with the
session list.  The `finally` block resets `isUploading`. -/
def handleFileUpload (env : UploadEnv) (st : HomeState) (files : List String) :
    HomeState × List Request :=
  let target := st.urlSessionId.getD "new"
  let isNewSession := st.urlSessionId.isNone
  let req0 := [Request.postUpload target files]
  match env.uploadResponse with
  | FetchOutcome.ok result =>
    let actualSessionId := result.session_id
    if 0 < result.uploaded_count + result.skipped_count then
      if isNewSession then
        match env.sessionFetch with
        | FetchOutcome.ok sd =>
          ({ st with sessions := sd.toChatSession :: st.sessions,
                     urlSessionId := some actualSessionId,
                     messages := sd.messages,
                     documents := sd.documents,
                     isUploading := false },
           req0 ++ [Request.getChat actualSessionId])
        | _ =>
          ({ st with isUploading := false }, req0 ++ [Request.getChat actualSessionId])
      else
        let r1 := fetchSessionData env.sessionFetch st actualSessionId
        let r2 := fetchSessionsOp env.sessionsFetch r1.1
        ({ r2.1 with isUploading := false }, req0 ++ r1.2 ++ r2.2)
    else ({ st with isUploading := false }, req0)
  | _ => ({ st with isUploading := false }, req0)

/-- Per-file upload loop of `src/unnamed/part_002` (lines 271-298): each file
goes in its own `POST /chats/:id/upload` request; a success bumps the counter
and fires an un-awaited `fetchSessionData(targetSessionId)` (recorded in the
trace; it resolves outside this episode, so its result is not applied here);
a non-ok response and a caught per-file transport error both change nothing,
so each file's outcome is one Bool. -/
def part002UploadLoop (target : String) : List (String × Bool) → List Request × Nat
  | [] => ([], 0)
  | (file, succeeded) :: rest =>
    let r := part002UploadLoop target rest
    if succeeded then
      (Request.postUpload target [file] :: Request.getChat target :: r.1, r.2 + 1)
    else
      (Request.postUpload target [file] :: r.1, r.2)

/-- `handleFileUpload` of the variant page `src/unnamed/part_002` (lines
236-308): when no session is active a session titled "New Chat (Files)" is
created first and its id adopted (prepended to the list, navigated to) before
any upload request is sent; a failed creation returns with nothing uploaded.
`results` gives each file's `res.ok`; the `finally` block resets
`isUploading`. -/
def part002FileUpload (createResponse : FetchOutcome ChatSession)
    (st : HomeState) (files : List String) (results : List Bool) :
    HomeState × List Request :=
  match st.urlSessionId with
  | some tid =>
    ({ st with isUploading := false }, (part002UploadLoop tid (files.zip results)).1)
  | none =>
    match createResponse with
    | FetchOutcome.ok ns =>
      ({ st with sessions := ns :: st.sessions, urlSessionId := some ns.id,
                 isUploading := false },
       Request.postChats "New Chat (Files)"
         :: (part002UploadLoop ns.id (files.zip results)).1)
    | _ => (st, [Request.postChats "New Chat (Files)"])

/-! ## Helper lemmas -/

/-- Number of `POST /chats` (session-creation) requests in a trace. -/
def countPostChats : List Request → Nat
  | [] => 0
  | Request.postChats _ :: rest => 1 + countPostChats rest
  | _ :: rest => countPostChats rest

theorem countPostChats_append (l1 l2 : List Request) :
    countPostChats (l1 ++ l2) = countPostChats l1 + countPostChats l2 := by
  induction l1 with
  | nil => simp [countPostChats]
  | cons r rest ih =>
    cases r <;> simp [countPostChats, ih, Nat.add_assoc]

theorem countPostChats_eq_zero (l : List Request)
    (h : ∀ r ∈ l, r = Request.getChats) : countPostChats l = 0 := by
  induction l with
  | nil => rfl
  | cons r rest ih =>
    have hr := h r (by simp)
    subst hr
    simp only [countPostChats]
    exact ih (fun r hm => h r (by simp [hm]))

/-- The final element of a list (the message the user is left looking at). -/
def lastElem {α : Type} : List α → Option α
  | [] => none
  | [a] => some a
  | _ :: rest => lastElem rest

theorem lastElem_append_singleton {α : Type} (l : List α) (a : α) :
    lastElem (l ++ [a]) = some a := by
  induction l with
  | nil => rfl
  | cons x xs ih =>
    rw [List.cons_append]
    cases hx : xs ++ [a] with
    | nil => exact absurd hx (by simp)
    | cons y ys =>
      rw [hx] at ih
      exact ih

/-- Every request the read loop itself fires while processing one chunk is the
un-awaited `fetchSessions()` triggered by `[DONE]`. -/
theorem processLines_requests (lines : List String) (content : String) :
    (processLines lines content).2 = [] ∨
      (processLines lines content).2 = [Request.getChats] := by
  induction lines generalizing content with
  | nil => left; rfl
  | cons line rest ih =>
    simp only [processLines]
    split
    · split
      · right; rfl
      · split
        · exact ih _
        · exact ih _
    · exact ih _

theorem processLines_mem (lines : List String) (content : String) :
    ∀ r ∈ (processLines lines content).2, r = Request.getChats := by
  intro r hr
  rcases processLines_requests lines content with h | h <;> rw [h] at hr
  · exact absurd hr (by simp)
  · simpa using hr

/-- Every request fired from inside the whole read loop is a `GET /chats`. -/
theorem decodeChunks_mem (chunks : List String) (content : String) :
    ∀ r ∈ (decodeChunks chunks content).2, r = Request.getChats := by
  induction chunks generalizing content with
  | nil =>
    intro r hr
    exact absurd hr (by simp [decodeChunks])
  | cons chunk rest ih =>
    intro r hr
    simp only [decodeChunks, List.mem_append] at hr
    rcases hr with hr | hr
    · exact processLines_mem _ _ r hr
    · exact ih _ r hr

/-- Shape of the state and trace produced by the sending phase: the sessions
list and active id are untouched, the trace is the pending requests, then the
message request, then only `GET /chats` refreshes, `isLoading` ends false, and
the message list is the old one plus the optimistic user message plus the
streamed (or error) tail. -/
theorem sendToSession_sessions (env : SendEnv) (st : HomeState) (preReqs : List Request)
    (target text : String) :
    (sendToSession env st preReqs target text).1.sessions = st.sessions := by
  unfold sendToSession
  cases h : env.bodyOutcome with
  | transportError => rfl
  | noBody => rfl
  | stream chunks readFails => cases readFails <;> rfl

theorem sendToSession_urlSessionId (env : SendEnv) (st : HomeState) (preReqs : List Request)
    (target text : String) :
    (sendToSession env st preReqs target text).1.urlSessionId = st.urlSessionId := by
  unfold sendToSession
  cases h : env.bodyOutcome with
  | transportError => rfl
  | noBody => rfl
  | stream chunks readFails => cases readFails <;> rfl

theorem sendToSession_isLoading (env : SendEnv) (st : HomeState) (preReqs : List Request)
    (target text : String) :
    (sendToSession env st preReqs target text).1.isLoading = false := by
  unfold sendToSession
  cases h : env.bodyOutcome with
  | transportError => rfl
  | noBody => rfl
  | stream chunks readFails => cases readFails <;> rfl

theorem sendToSession_requests_shape (env : SendEnv) (st : HomeState) (preReqs : List Request)
    (target text : String) :
    ∃ tail, (sendToSession env st preReqs target text).2
        = preReqs ++ [Request.postMessage target text] ++ tail
      ∧ ∀ r ∈ tail, r = Request.getChats := by
  unfold sendToSession
  cases h : env.bodyOutcome with
  | transportError => exact ⟨[], by simp, by simp⟩
  | noBody => exact ⟨[], by simp, by simp⟩
  | stream chunks readFails =>
    cases readFails <;>
      exact ⟨(decodeChunks chunks "").2, by simp, decodeChunks_mem _ _⟩

/-! ## Claims -/

/-- C1, refuted by the code.  The spec demands chunk-split invariance of the
streamed-body decoder, with fragments that do not end on a record boundary
buffered and prefixed to the next chunk.  The source splits every chunk on
`"\n\n"` independently and keeps no carry-over buffer, so splitting the body
`data: {"token":"Hello"}\n\n` inside the record yields assistant content `""`
instead of `"Hello"`: the split record is lost. -/
theorem c1_chunk_split_changes_decoded_content :
    "data: \x7b\"tok" ++ "en\":\"Hello\"\x7d\n\n" = "data: \x7b\"token\":\"Hello\"\x7d\n\n"
    ∧ (decodeChunks ["data: \x7b\"token\":\"Hello\"\x7d\n\n"] "").1 = "Hello"
    ∧ (decodeChunks ["data: \x7b\"tok", "en\":\"Hello\"\x7d\n\n"] "").1 = "" :=
  ⟨rfl, rfl, rfl⟩

/-- C2, refuted by the code.  `[DONE]` must terminate decoding, but the `break`
in the source only leaves the per-chunk `for` loop: a record after `[DONE]`
inside the same chunk is ignored, while the same record delivered in a later
chunk of the same body is still decoded and its token appended. -/
theorem c2_token_after_done_in_later_chunk_is_appended :
    (decodeChunks ["data: [DONE]\n\ndata: \x7b\"token\":\"X\"\x7d\n\n"] "").1 = ""
    ∧ (decodeChunks ["data: [DONE]\n\n", "data: \x7b\"token\":\"X\"\x7d\n\n"] "").1 = "X" :=
  ⟨rfl, rfl⟩

/-- C3, refuted by the code.  After a successful rename (resp. delete) the list
should contain the session with the new title (resp. drop it), keyed by the
`id` field of `ChatSession`.  `src/client/src/pages/Home/index.tsx` instead
matches on the absent property `_id` (always `undefined`), so a successful
delete keeps the session in the list and a successful rename keeps the old
title; the variant `src/unnamed/part_002` matches on `id` and behaves as
claimed on the same input. -/
theorem c3_delete_rename_match_on_missing_underscore_id :
    (handleDeleteSession (FetchOutcome.ok ()) true
        ⟨[⟨"s1", "Old", "t0"⟩], [], [], false, false, some "s1"⟩ "s1").1.sessions
      = [⟨"s1", "Old", "t0"⟩]
    ∧ (handleRenameSession (FetchOutcome.ok ())
        ⟨[⟨"s1", "Old", "t0"⟩], [], [], false, false, none⟩ "s1" "New").1.sessions
      = [⟨"s1", "Old", "t0"⟩]
    ∧ (part002DeleteSession (FetchOutcome.ok ()) true
        ⟨[⟨"s1", "Old", "t0"⟩], [], [], false, false, some "s1"⟩ "s1").1.sessions
      = []
    ∧ (part002RenameSession (FetchOutcome.ok ())
        ⟨[⟨"s1", "Old", "t0"⟩], [], [], false, false, none⟩ "s1" "New").1.sessions
      = [⟨"s1", "New", "t0"⟩] :=
  ⟨rfl, rfl, rfl, rfl⟩

/-- C5, confirmed.  While a send is in flight (`isLoading` true) a
second submit attempt is rejected by the guard in `MessageInput.handleSubmit`:
the state is unchanged, no request is issued, and the composed text is kept. -/
theorem c5_submit_while_loading_is_noop (env : SendEnv) (st : HomeState)
    (message : String) (h : st.isLoading = true) :
    handleSubmit env st message = ((st, []), message) := by
  simp [handleSubmit, h]

theorem c5_witness :
    (⟨[], [], [], true, false, none⟩ : HomeState).isLoading = true
    ∧ handleSubmit ⟨FetchOutcome.httpError, BodyOutcome.noBody⟩
        ⟨[], [], [], true, false, none⟩ "hi"
      = ((⟨[], [], [], true, false, none⟩, []), "hi") :=
  ⟨rfl, c5_submit_while_loading_is_noop _ _ _ rfl⟩

/-- C10, confirmed.  A text that trims to empty makes
`handleSendMessage` a complete no-op: the guard `if (!text.trim()) return`
fires before any session creation, message append or request. -/
theorem c10_blank_text_is_noop (env : SendEnv) (st : HomeState) (text : String)
    (h : jsTrim text = "") :
    handleSendMessage env st text = (st, []) := by
  simp [handleSendMessage, h]

theorem c10_witness :
    jsTrim "   " = ""
    ∧ handleSendMessage ⟨FetchOutcome.httpError, BodyOutcome.noBody⟩
        ⟨[], [], [], false, false, some "s1"⟩ "   "
      = (⟨[], [], [], false, false, some "s1"⟩, []) :=
  ⟨rfl, c10_blank_text_is_noop _ _ _ rfl⟩

/-- C8, confirmed.  A rename or delete that fails — non-success
status or transport error — leaves the whole state (sessions, messages,
documents included) exactly as it was, in both page variants. -/
theorem c8_failed_list_op_leaves_state_unchanged (resp : FetchOutcome Unit)
    (st : HomeState) (sid title : String) (confirmed : Bool)
    (h : resp = FetchOutcome.httpError ∨ resp = FetchOutcome.transportError) :
    (handleDeleteSession resp confirmed st sid).1 = st
    ∧ (handleRenameSession resp st sid title).1 = st
    ∧ (part002DeleteSession resp confirmed st sid).1 = st
    ∧ (part002RenameSession resp st sid title).1 = st := by
  rcases h with h | h <;> subst h <;> cases confirmed <;> exact ⟨rfl, rfl, rfl, rfl⟩

/-- C4, confirmed.  Submitting a non-blank text while no session is
active, with the creation call succeeding, creates exactly one session (one
`POST /chats` in the trace), prepends it to the session list, makes its id the
active one, and sends the user message to that id — and to no other id —
whatever the streaming response then does. -/
theorem c4_new_session_created_prepended_and_targeted (env : SendEnv) (st : HomeState)
    (text : String) (ns : ChatSession)
    (hactive : st.urlSessionId = none)
    (htext : jsTrim text ≠ "")
    (hcreate : env.createResponse = FetchOutcome.ok ns) :
    countPostChats (handleSendMessage env st text).2 = 1
    ∧ (handleSendMessage env st text).1.sessions = ns :: st.sessions
    ∧ (handleSendMessage env st text).1.urlSessionId = some ns.id
    ∧ Request.postMessage ns.id text ∈ (handleSendMessage env st text).2
    ∧ ∀ sid msg, Request.postMessage sid msg ∈ (handleSendMessage env st text).2 →
        sid = ns.id := by
  have hsend : handleSendMessage env st text
      = sendToSession env
          { st with sessions := ns :: st.sessions, urlSessionId := some ns.id }
          [Request.postChats (sessionTitle text)] ns.id text := by
    unfold handleSendMessage
    rw [if_neg htext, hactive, hcreate]
  obtain ⟨tail, hshape, htail⟩ :=
    sendToSession_requests_shape env
      { st with sessions := ns :: st.sessions, urlSessionId := some ns.id }
      [Request.postChats (sessionTitle text)] ns.id text
  refine ⟨?_, ?_, ?_, ?_, ?_⟩
  · rw [hsend, hshape, countPostChats_append, countPostChats_append,
      countPostChats_eq_zero tail htail]
    rfl
  · rw [hsend, sendToSession_sessions]
  · rw [hsend, sendToSession_urlSessionId]
  · rw [hsend, hshape]
    simp
  · intro sid msg hmem
    rw [hsend, hshape] at hmem
    simp [List.mem_append] at hmem
    rcases hmem with ⟨h1, _⟩ | hmem
    · exact h1
    · exact absurd (htail _ hmem) (by simp)

theorem c4_witness :
    jsTrim "hello" ≠ ""
    ∧ (handleSendMessage
        ⟨FetchOutcome.ok ⟨"s9", "T", "u"⟩,
         BodyOutcome.stream ["data: \x7b\"token\":\"Hi\"\x7d\n\ndata: [DONE]\n\n"] false⟩
        ⟨[], [], [], false, false, none⟩ "hello").1.sessions = [⟨"s9", "T", "u"⟩]
    ∧ (handleSendMessage
        ⟨FetchOutcome.ok ⟨"s9", "T", "u"⟩,
         BodyOutcome.stream ["data: \x7b\"token\":\"Hi\"\x7d\n\ndata: [DONE]\n\n"] false⟩
        ⟨[], [], [], false, false, none⟩ "hello").1.urlSessionId = some "s9" :=
  ⟨by decide,
   (c4_new_session_created_prepended_and_targeted
      ⟨FetchOutcome.ok ⟨"s9", "T", "u"⟩,
       BodyOutcome.stream ["data: \x7b\"token\":\"Hi\"\x7d\n\ndata: [DONE]\n\n"] false⟩
      ⟨[], [], [], false, false, none⟩ "hello" ⟨"s9", "T", "u"⟩
      rfl (by decide) rfl).2.1,
   (c4_new_session_created_prepended_and_targeted
      ⟨FetchOutcome.ok ⟨"s9", "T", "u"⟩,
       BodyOutcome.stream ["data: \x7b\"token\":\"Hi\"\x7d\n\ndata: [DONE]\n\n"] false⟩
      ⟨[], [], [], false, false, none⟩ "hello" ⟨"s9", "T", "u"⟩
      rfl (by decide) rfl).2.2.1⟩

/-- C6, confirmed.  Every failure during a Sending episode — a
transport error, a missing response body, or `reader.read()` throwing
mid-stream — appends the synthetic assistant failure message and resets
`isLoading`, so the reply the user is left with is never the forever-empty
placeholder. -/
theorem c6_send_failure_appends_error_reply (env : SendEnv) (st : HomeState)
    (text tid : String)
    (htid : st.urlSessionId = some tid)
    (htext : jsTrim text ≠ "")
    (hfail : env.bodyOutcome = BodyOutcome.transportError
      ∨ env.bodyOutcome = BodyOutcome.noBody
      ∨ ∃ chunks, env.bodyOutcome = BodyOutcome.stream chunks true) :
    (handleSendMessage env st text).1.isLoading = false
    ∧ lastElem (handleSendMessage env st text).1.messages = some errorReplyMessage
    ∧ errorReplyMessage.role = "assistant"
    ∧ errorReplyMessage.content ≠ "" := by
  have hsend : handleSendMessage env st text = sendToSession env st [] tid text := by
    unfold handleSendMessage
    rw [if_neg htext, htid]
  refine ⟨by rw [hsend]; exact sendToSession_isLoading _ _ _ _ _, ?_, rfl, by decide⟩
  rw [hsend]
  unfold sendToSession
  rcases hfail with h | h | ⟨chunks, h⟩ <;> rw [h]
  · exact lastElem_append_singleton _ _
  · exact lastElem_append_singleton _ _
  · exact lastElem_append_singleton _ _

theorem c6_witness :
    jsTrim "hi" ≠ ""
    ∧ lastElem (handleSendMessage ⟨FetchOutcome.httpError, BodyOutcome.transportError⟩
        ⟨[], [], [], false, false, some "s1"⟩ "hi").1.messages = some errorReplyMessage :=
  ⟨by decide,
   (c6_send_failure_appends_error_reply
      ⟨FetchOutcome.httpError, BodyOutcome.transportError⟩
      ⟨[], [], [], false, false, some "s1"⟩ "hi" "s1"
      rfl (by decide) (Or.inl rfl)).2.1⟩

/-- C7, confirmed.  A record whose payload is malformed JSON (and is
not the `[DONE]` sentinel) is skipped without aborting: removing it from the
record sequence of a chunk — or removing a transport chunk consisting of just
that record — changes nothing in the decoded content, the issued requests, or
the processing of every later record. -/
theorem c7_malformed_record_skipped (pre post chunksA chunksB : List String)
    (line content bodyContent : String)
    (h1 : listStartsWith "data: ".data line.data = true)
    (h2 : Json.parse (String.mk (line.data.drop 6)) = none)
    (h3 : String.mk (line.data.drop 6) ≠ "[DONE]")
    (h4 : splitOn2NL line.data = [line.data]) :
    processLines (pre ++ line :: post) content = processLines (pre ++ post) content
    ∧ decodeChunks (chunksA ++ line :: chunksB) bodyContent
      = decodeChunks (chunksA ++ chunksB) bodyContent := by
  have hra : recordAppend (String.mk (line.data.drop 6)) = none := by
    unfold recordAppend
    rw [h2]
  have hline : ∀ (q r : List String) (c : String),
      processLines (q ++ line :: r) c = processLines (q ++ r) c := by
    intro q r
    induction q with
    | nil =>
      intro c
      rw [List.nil_append, List.nil_append]
      simp only [processLines, h1, if_true]
      rw [if_neg h3, hra]
    | cons p ps ih =>
      intro c
      simp only [List.cons_append, processLines]
      split
      · split
        · rfl
        · split
          · exact ih _
          · exact ih _
      · exact ih _
  have hchunk : ∀ c, processChunk c line = (c, []) := by
    intro c
    show processLines ((splitOn2NL line.data).map String.mk) c = (c, [])
    rw [h4]
    exact hline [] [] c
  refine ⟨hline pre post content, ?_⟩
  induction chunksA generalizing bodyContent with
  | nil =>
    rw [List.nil_append, List.nil_append]
    simp only [decodeChunks]
    rw [hchunk]
    simp
  | cons ch rest ih =>
    simp only [List.cons_append, decodeChunks, List.append_eq]
    rw [ih]

theorem c7_witness :
    Json.parse (String.mk (("data: \x7bbad").data.drop 6)) = none
    ∧ processLines
        (["data: \x7b\"token\":\"A\"\x7d"] ++ "data: \x7bbad" :: ["data: \x7b\"token\":\"B\"\x7d"]) ""
      = processLines (["data: \x7b\"token\":\"A\"\x7d"] ++ ["data: \x7b\"token\":\"B\"\x7d"]) "" :=
  ⟨rfl,
   (c7_malformed_record_skipped
      ["data: \x7b\"token\":\"A\"\x7d"] ["data: \x7b\"token\":\"B\"\x7d"] [] []
      "data: \x7bbad" "" ""
      rfl rfl (by decide) rfl).1⟩

/-- C9, refuted as stated and proved in amended form.  The claim as stated
fails on the batched variant: when `uploaded_count > 0` but the follow-up
`GET /chats/:id` fails, `index.tsx:303-318` (an `if (sessionRes.ok)` with no
else; the `catch` swallows a throw) never adopts the returned id.  Here the
upload succeeds with 2 files while that fetch throws, and the active id stays
`none` instead of becoming the returned `"sX"`. -/
theorem c9_counterexample_fetch_failure_blocks_adoption :
    (UploadResponse.mk "sX" 2 1 0 ["b.pdf"] []).uploaded_count = 2
    ∧ (handleFileUpload
        ⟨FetchOutcome.ok ⟨"sX", 2, 1, 0, ["b.pdf"], []⟩,
         FetchOutcome.transportError, FetchOutcome.transportError⟩
        ⟨[], [], [], false, false, none⟩ ["a.pdf", "b.pdf"]).1.urlSessionId = none :=
  ⟨rfl, rfl⟩

/-- C9 as amended.  An upload performed while no session is active first
resolves a target session: the batched variant's one upload request targets
the server's create-on-upload `"new"` sentinel, and the per-file variant
(`part_002`) first issues `POST /chats` for a session titled
"New Chat (Files)".  Adoption of the resolved id: in the batched variant,
when the batch's successful count is non-zero the server-returned
`session_id` becomes the active id provided the follow-up `GET /chats/:id`
succeeds, and is NOT adopted (the active id stays `none`) when that fetch
fails; the per-file variant adopts the created session's id unconditionally
once creation succeeds — in particular whenever the successful count is
non-zero. -/
theorem c9_amended_upload_resolves_target_and_adopts_id
    (env : UploadEnv) (st : HomeState) (files : List String)
    (result : UploadResponse) (ns : ChatSession) (results : List Bool)
    (hnone : st.urlSessionId = none)
    (hup : env.uploadResponse = FetchOutcome.ok result)
    (hcount : 0 < result.uploaded_count) :
    (handleFileUpload env st files).2.head? = some (Request.postUpload "new" files)
    ∧ (∀ sd, env.sessionFetch = FetchOutcome.ok sd →
        (handleFileUpload env st files).1.urlSessionId = some result.session_id)
    ∧ ((env.sessionFetch = FetchOutcome.httpError
        ∨ env.sessionFetch = FetchOutcome.transportError) →
        (handleFileUpload env st files).1.urlSessionId = none)
    ∧ (part002FileUpload (FetchOutcome.ok ns) st files results).2.head?
        = some (Request.postChats "New Chat (Files)")
    ∧ (part002FileUpload (FetchOutcome.ok ns) st files results).1.urlSessionId
        = some ns.id := by
  have hpos : 0 < result.uploaded_count + result.skipped_count := by omega
  refine ⟨?_, ?_, ?_, ?_, ?_⟩
  · unfold handleFileUpload
    rw [hnone, hup]
    cases h : env.sessionFetch <;> simp [h, hpos]
  · intro sd hsd
    unfold handleFileUpload
    rw [hnone, hup, hsd]
    simp [hpos]
  · intro hfail
    unfold handleFileUpload
    rw [hnone, hup]
    rcases hfail with h | h <;> rw [h] <;> simp [hpos]
  · unfold part002FileUpload
    rw [hnone]
    rfl
  · unfold part002FileUpload
    rw [hnone]

theorem c9_witness :
    (0 : Nat) < 2
    ∧ (handleFileUpload
        ⟨FetchOutcome.ok ⟨"sX", 2, 1, 0, ["b.pdf"], []⟩,
         FetchOutcome.ok ⟨"sX", "T", "u", [], [⟨"a.pdf", 10, "u"⟩]⟩,
         FetchOutcome.transportError⟩
        ⟨[], [], [], false, false, none⟩ ["a.pdf", "b.pdf"]).1.urlSessionId = some "sX"
    ∧ (part002FileUpload (FetchOutcome.ok ⟨"p1", "New Chat (Files)", "u"⟩)
        ⟨[], [], [], false, false, none⟩ ["a.pdf"] [true]).1.urlSessionId = some "p1" :=
  ⟨by decide,
   (c9_amended_upload_resolves_target_and_adopts_id
      ⟨FetchOutcome.ok ⟨"sX", 2, 1, 0, ["b.pdf"], []⟩,
       FetchOutcome.ok ⟨"sX", "T", "u", [], [⟨"a.pdf", 10, "u"⟩]⟩,
       FetchOutcome.transportError⟩
      ⟨[], [], [], false, false, none⟩ ["a.pdf", "b.pdf"]
      ⟨"sX", 2, 1, 0, ["b.pdf"], []⟩ ⟨"p1", "New Chat (Files)", "u"⟩ [true]
      rfl rfl (by decide)).2.1 ⟨"sX", "T", "u", [], [⟨"a.pdf", 10, "u"⟩]⟩ rfl,
   (c9_amended_upload_resolves_target_and_adopts_id
      ⟨FetchOutcome.ok ⟨"sX", 2, 1, 0, ["b.pdf"], []⟩,
       FetchOutcome.ok ⟨"sX", "T", "u", [], [⟨"a.pdf", 10, "u"⟩]⟩,
       FetchOutcome.transportError⟩
      ⟨[], [], [], false, false, none⟩ ["a.pdf"]
      ⟨"sX", 2, 1, 0, ["b.pdf"], []⟩ ⟨"p1", "New Chat (Files)", "u"⟩ [true]
      rfl rfl (by decide)).2.2.2.2⟩

theorem c8_witness :
    ((FetchOutcome.httpError : FetchOutcome Unit) = FetchOutcome.httpError
      ∨ (FetchOutcome.httpError : FetchOutcome Unit) = FetchOutcome.transportError)
    ∧ (handleDeleteSession FetchOutcome.httpError true
        ⟨[⟨"s1", "Old", "t0"⟩], [], [], false, false, some "s1"⟩ "s1").1
      = ⟨[⟨"s1", "Old", "t0"⟩], [], [], false, false, some "s1"⟩ :=
  ⟨Or.inl rfl,
   (c8_failed_list_op_leaves_state_unchanged FetchOutcome.httpError
      ⟨[⟨"s1", "Old", "t0"⟩], [], [], false, false, some "s1"⟩ "s1" "x" true
      (Or.inl rfl)).1⟩

end LegalDoc
